import Mathlib

/-!
Shallow embedding of the lmsilo-locate job pipeline.

The embedding covers:
* `Core/llocale/predictor.py` — `InputRecord`, `LocationPrediction`
  (with its `location_summary` property), `PredictionOutcome`,
  `reverse_lookup`, and `GeoClipPredictor.predict_records`;
* `backend/workers/tasks.py` — `_process_geolocation_async`, the job
  processor driving a single-record prediction and persisting the job;
* `backend/models/job.py` — the `Job` record and its `JobStatus` values;
* `backend/services/model_manager.py` — `GeoClipModelManager`
  (`get_predictor`, `_check_timeout`, `_unload`, `shutdown`).

External collaborators (the filesystem, the GeoCLIP model, the reverse
geocoder, predictor construction) are abstracted as an explicit
environment `Env`; machine floats carried by the code (coordinates,
probabilities) appear here as `Int`, since every property at stake only
compares or copies them.
-/

/-- Mirrors `InputRecord` of `Core/llocale/predictor.py`: a single
prediction request (paths are plain strings here). -/
structure InputRecord where
  index : Nat
  path : String
  md5 : Option String
deriving DecidableEq, Repr

/-- Mirrors `LocationPrediction`: a single ranked prediction. -/
structure LocationPrediction where
  rank : Nat
  latitude : Int
  longitude : Int
  probability : Int
  city : String
  state : String
  county : String
  country : String
deriving DecidableEq, Repr

/-- Mirrors the `location_summary` property: comma-join of the truthy
entries among city, state, county, country, in that order. -/
def LocationPrediction.location_summary (p : LocationPrediction) : String :=
  let parts := [p.city, p.state, p.county, p.country]
  let filtered := parts.filter (fun part => part ≠ "")
  String.intercalate ", " filtered

/-- Mirrors `PredictionOutcome`: result of attempting one record. -/
structure PredictionOutcome where
  record : InputRecord
  predictions : List LocationPrediction
  warnings : List String
  error : Option String
deriving DecidableEq, Repr

/-- The mapping returned by `reverse_geocode.get`: a dict that may or
may not carry each of the four place keys. -/
structure PlaceMap where
  city : Option String
  state : Option String
  county : Option String
  country : Option String
deriving DecidableEq, Repr

/-- The empty dict `{}` (no keys present). -/
def emptyPlace : PlaceMap := ⟨none, none, none, none⟩

/-- Python `location.get(key, "") or ""`: a missing key yields `""`. -/
def orEmpty (v : Option String) : String :=
  match v with
  | some s => s
  | none => ""

/-- The external collaborators of the pipeline, passed explicitly:
`pathExists` is the filesystem check `record.path.exists()`;
`modelPredict` is `GeoCLIP.predict` (already materialized into plain
lists; `.error` is a raised exception's message); `resolver` is
`reverse_geocode.get` (`none` models a raised exception); `loadPredictor`
is predictor construction in the worker (`.error` a raised exception);
`deviceLabel` is `predictor.device_label`. -/
structure Env where
  pathExists : String → Bool
  modelPredict : String → Nat → Except String (List (Int × Int) × List Int)
  resolver : Int → Int → Option PlaceMap
  loadPredictor : Except String Unit
  deviceLabel : String

/-- Mirrors `reverse_lookup` of `Core/llocale/predictor.py`: any resolver
exception is swallowed into the empty dict. -/
def reverse_lookup (resolver : Int → Int → Option PlaceMap) (lat lon : Int) : PlaceMap :=
  match resolver lat lon with
  | some m => m
  | none => emptyPlace

/-- The candidate-assembly loop of `predict_records`:
`enumerate(zip(gps_predictions, probabilities), start=1)`, reverse lookup
per candidate, place fields defaulted to `""`. -/
def buildCandidates (env : Env) (gps : List (Int × Int)) (probs : List Int) :
    List LocationPrediction :=
  (List.enumFrom 1 (gps.zip probs)).map (fun entry =>
    let rank := entry.1
    let lat := entry.2.1.1
    let lon := entry.2.1.2
    let prob := entry.2.2
    let location := reverse_lookup env.resolver lat lon
    { rank := rank
      latitude := lat
      longitude := lon
      probability := prob
      city := orEmpty location.city
      state := orEmpty location.state
      county := orEmpty location.county
      country := orEmpty location.country })

/-- The inference arm of `predict_records` for one record whose file
exists: call the model, turn a raised exception or an empty result into
an error outcome, otherwise assemble candidates. -/
def inferRecord (env : Env) (top_k : Nat) (r : InputRecord) : PredictionOutcome :=
  match env.modelPredict r.path top_k with
  | .error exc =>
      { record := r, predictions := [], warnings := []
        error := some ("Prediction failed: " ++ exc) }
  | .ok (gps, probs) =>
      if gps.isEmpty then
        { record := r, predictions := [], warnings := []
          error := some "Model returned no predictions." }
      else
        { record := r, predictions := buildCandidates env gps probs
          warnings := [], error := none }

/-- One iteration of the `predict_records` loop body. -/
def predictRecord (env : Env) (top_k : Nat) (skip_missing : Bool) (r : InputRecord) :
    PredictionOutcome :=
  if env.pathExists r.path = false then
    let message := "File does not exist: " ++ r.path
    if skip_missing then
      { record := r, predictions := [], warnings := [message], error := none }
    else
      { record := r, predictions := [], warnings := [], error := some message }
  else
    inferRecord env top_k r

/-- Mirrors `GeoClipPredictor.predict_records`: one outcome yielded per
input record, in input order. -/
def predict_records (env : Env) (top_k : Nat) (skip_missing : Bool)
    (records : List InputRecord) : List PredictionOutcome :=
  records.map (predictRecord env top_k skip_missing)

/-- Mirrors `JobStatus` of `backend/models/job.py`. -/
inductive JobStatus where
  | pending
  | processing
  | completed
  | failed
deriving DecidableEq, Repr

/-- One serialized prediction dict as built by
`_process_geolocation_async` (lines 89-100 of tasks.py). -/
structure PredRow where
  rank : Nat
  latitude : Int
  longitude : Int
  probability : Int
  city : String
  state : String
  county : String
  country : String
  location_summary : String
deriving DecidableEq, Repr

/-- `job.results` payload: `{"predictions": ..., "device": ...}`. -/
structure JobResults where
  predictions : List PredRow
  device : String
deriving DecidableEq, Repr

/-- Mirrors the `Job` model of `backend/models/job.py` (timestamps as
naturals). -/
structure Job where
  id : String
  filename : String
  file_path : String
  status : JobStatus
  error : Option String
  results : Option JobResults
  top_k : Nat
  created_at : Nat
  started_at : Option Nat
  completed_at : Option Nat
deriving DecidableEq, Repr

/-- Serialization of one `LocationPrediction` into the results dict. -/
def serializePrediction (p : LocationPrediction) : PredRow :=
  { rank := p.rank
    latitude := p.latitude
    longitude := p.longitude
    probability := p.probability
    city := p.city
    state := p.state
    county := p.county
    country := p.country
    location_summary := p.location_summary }

/-- Mirrors the body of `_process_geolocation_async` once the job has
been found: returns the pair of persisted job states — after the first
commit (status processing, `started_at` stamped at `t1`) and after the
final commit in `finally` (`completed_at` stamped at `t2`).  A raised
exception from predictor construction lands in the `except` arm; the
success arm keys on `outcomes and outcomes[0].predictions`.  The
predictor call is modelled at the `Path`-typed level (file existence as
a boolean); `process_geolocation_async` below refines the call site's
actual `str` typing, where the existence check itself raises. -/
def processJobAsync (env : Env) (t1 t2 : Nat) (j : Job) : Job × Job :=
  let s1 : Job := { j with status := .processing, started_at := some t1 }
  let s2 : Job :=
    match env.loadPredictor with
    | .error e => { s1 with status := .failed, error := some e }
    | .ok _ =>
        let record : InputRecord := { index := 1, path := j.file_path, md5 := none }
        let outcomes := predict_records env j.top_k false [record]
        match outcomes.head? with
        | some o =>
            if o.predictions.isEmpty then
              { s1 with status := .failed, error := some "No predictions generated" }
            else
              { s1 with
                  results := some
                    { predictions := o.predictions.map serializePrediction
                      device := env.deviceLabel }
                  status := .completed }
        | none => { s1 with status := .failed, error := some "No predictions generated" }
  (s1, { s2 with completed_at := some t2 })

/-- The job-store view of `_process_geolocation_async`: looking up an
absent id logs and returns, persisting nothing; otherwise the processed
job replaces the stored one. -/
def processStore (env : Env) (t1 t2 : Nat) (store : String → Option Job)
    (jobId : String) : String → Option Job :=
  match store jobId with
  | none => store
  | some j => fun k => if k = jobId then some (processJobAsync env t1 t2 j).2 else store k

/-!
Refinement of the worker at the Python typing level.

`InputRecord.path` is annotated `Path`, and every batch caller passes a
real `pathlib.Path`; `processJobAsync` above models that level, where
`record.path.exists()` is a clean filesystem boolean.  The worker call
site is different: `tasks.py` line 74 passes `job.file_path`, a plain
`str` (the `String(512)` column, stored via `str(file_path)` in
`api/jobs.py`), so inside `predict_records` the very first
`record.path.exists()` raises `AttributeError` before any missing-file
handling, and the worker's `except` arm stores that text as the job
error.  The definitions below embed that call site with the str/Path
distinction made explicit.
-/

/-- A Python value flowing into `InputRecord.path`: either a real
`pathlib.Path` or a plain `str`. -/
inductive PyPath where
  | pathObj (s : String)
  | strObj (s : String)
deriving DecidableEq, Repr

/-- The text of the underlying value. -/
def PyPath.text : PyPath → String
  | .pathObj s => s
  | .strObj s => s

/-- Forget the typing, keeping the record data. -/
def InputRecordPy.plain (index : Nat) (path : PyPath) (md5 : Option String) : InputRecord :=
  { index := index, path := path.text, md5 := md5 }

/-- `record.path.exists()`: a `pathlib.Path` consults the filesystem; a
plain `str` has no `exists` attribute and raises `AttributeError`. -/
def pathExistsCall (env : Env) : PyPath → Except String Bool
  | .pathObj s => .ok (env.pathExists s)
  | .strObj _ => .error "'str' object has no attribute 'exists'"

/-- `predict_records` consumed by `list(...)`, at the typing level: when
`record.path.exists()` raises, the exception escapes the generator and
the partial list is lost; otherwise one outcome per record exactly as in
`predict_records`. -/
def predict_records_py (env : Env) (top_k : Nat) (skip_missing : Bool) :
    List (Nat × PyPath × Option String) → Except String (List PredictionOutcome)
  | [] => .ok []
  | (index, path, md5) :: rs =>
      match pathExistsCall env path with
      | .error e => .error e
      | .ok ex =>
          let o :=
            if ex = false then
              let message := "File does not exist: " ++ path.text
              if skip_missing then
                { record := InputRecordPy.plain index path md5, predictions := []
                  warnings := [message], error := none }
              else
                { record := InputRecordPy.plain index path md5, predictions := []
                  warnings := [], error := some message }
            else inferRecord env top_k (InputRecordPy.plain index path md5)
          match predict_records_py env top_k skip_missing rs with
          | .error e => .error e
          | .ok os => .ok (o :: os)

/-- `_process_geolocation_async` at the typing level of its real call
site: the single record is built with `path := job.file_path`, a `str`,
and a raised `AttributeError` from the predictor lands in the worker's
`except` arm as the job error. -/
def process_geolocation_async (env : Env) (t1 t2 : Nat) (j : Job) : Job × Job :=
  let s1 : Job := { j with status := .processing, started_at := some t1 }
  let s2 : Job :=
    match env.loadPredictor with
    | .error e => { s1 with status := .failed, error := some e }
    | .ok _ =>
        match predict_records_py env j.top_k false [(1, .strObj j.file_path, none)] with
        | .error e => { s1 with status := .failed, error := some e }
        | .ok outcomes =>
            match outcomes.head? with
            | some o =>
                if o.predictions.isEmpty then
                  { s1 with status := .failed, error := some "No predictions generated" }
                else
                  { s1 with
                      results := some
                        { predictions := o.predictions.map serializePrediction
                          device := env.deviceLabel }
                      status := .completed }
            | none => { s1 with status := .failed, error := some "No predictions generated" }
  (s1, { s2 with completed_at := some t2 })

/-!
Embedding of `backend/services/model_manager.py`.

`MgrState` carries the fields of `GeoClipModelManager` that the residency
logic reads or writes: `resident` stands for `self._predictor is not None`
(the predictor object itself is abstracted away), `lastUsed` for `self._last_used`,
`running` for `self._running`.  The ghost field `builds` counts how many
times `GeoClipPredictor(...)` has been constructed; no source statement
reads it, it only instruments the lifecycle claims.  Time is an explicit
`Nat` argument standing for `time.time()`.
-/

/-- Observable state of `GeoClipModelManager`. -/
structure MgrState where
  resident : Bool
  lastUsed : Nat
  running : Bool
  builds : Nat
deriving DecidableEq, Repr

/-- Mirrors `_unload`: drop the predictor reference and reset
`_last_used` (the gc / cuda-cache calls have no observable state here). -/
def unloadModel (s : MgrState) : MgrState :=
  { s with resident := false, lastUsed := 0 }

/-- Mirrors `_check_timeout`, run by the cleanup thread at time `t`:
unload when a predictor is resident, `_last_used > 0`, and
`t - _last_used > _timeout`. -/
def check_timeout (timeout : Nat) (t : Nat) (s : MgrState) : MgrState :=
  if s.resident = true ∧ s.lastUsed > 0 ∧ t - s.lastUsed > timeout then
    unloadModel s
  else s

/-- Mirrors `get_predictor` called at time `t`: `_last_used` is updated
first, then the predictor is constructed if absent.  `ctor` is the
outcome of `GeoClipPredictor(device=...)`: `.error` models a raised
construction exception, which propagates to the caller and leaves the
predictor reference unassigned. -/
def get_predictor (ctor : Except String Unit) (t : Nat) (s : MgrState) :
    MgrState × Except String Unit :=
  let s1 := { s with lastUsed := t }
  if s1.resident then (s1, .ok ())
  else
    match ctor with
    | .ok _ => ({ s1 with resident := true, builds := s1.builds + 1 }, .ok ())
    | .error e => (s1, .error e)

/-- Mirrors `shutdown`: stop the sweep loop and unload any resident
predictor. -/
def shutdownMgr (s : MgrState) : MgrState :=
  let s1 := { s with running := false }
  if s1.resident then unloadModel s1 else s1

/-- An event hitting the manager: an acquisition (with construction
succeeding) or one firing of the periodic sweep, each at a wall-clock
time. -/
inductive MEvent where
  | acquire (t : Nat)
  | sweep (t : Nat)
deriving DecidableEq, Repr

/-- One manager step. -/
def mstep (timeout : Nat) (s : MgrState) : MEvent → MgrState
  | .acquire t => (get_predictor (.ok ()) t s).1
  | .sweep t => check_timeout timeout t s

/-- Run a sequence of manager events. -/
def runEvents (timeout : Nat) (s : MgrState) (es : List MEvent) : MgrState :=
  es.foldl (mstep timeout) s

/-- `WithinChain timeout tl es`: every event of `es` happens no earlier
than `tl` and within the idle window of the most recent acquisition
(initially at time `tl`); acquisitions advance that reference time. -/
inductive WithinChain (timeout : Nat) : Nat → List MEvent → Prop where
  | nil (tl : Nat) : WithinChain timeout tl []
  | sweep (tl t : Nat) (es : List MEvent) (h1 : tl ≤ t) (h2 : t ≤ tl + timeout)
      (h : WithinChain timeout tl es) : WithinChain timeout tl (.sweep t :: es)
  | acquire (tl t : Nat) (es : List MEvent) (h1 : tl ≤ t) (h2 : t ≤ tl + timeout)
      (h : WithinChain timeout t es) : WithinChain timeout tl (.acquire t :: es)

/-- Sample manager state: predictor resident, last used at time 5. -/
def mgrResident : MgrState := { resident := true, lastUsed := 5, running := true, builds := 1 }

/-- Sample manager state: no predictor resident. -/
def mgrAbsent : MgrState := { resident := false, lastUsed := 0, running := true, builds := 0 }

/-- A freshly submitted job, as the submission surface creates it:
pending, no error, no results, no start or completion timestamp. -/
def freshJob (j : Job) : Prop :=
  j.status = .pending ∧ j.error = none ∧ j.results = none ∧
  j.started_at = none ∧ j.completed_at = none

/-- The nullability invariants of the spec data model: `started_at` set
iff the job left pending, `completed_at` set iff terminal, `results` set
iff completed, `error` set iff failed. -/
def jobInvariants (j : Job) : Prop :=
  (j.started_at.isSome ↔ j.status ≠ .pending) ∧
  (j.completed_at.isSome ↔ (j.status = .completed ∨ j.status = .failed)) ∧
  (j.results.isSome ↔ j.status = .completed) ∧
  (j.error.isSome ↔ j.status = .failed)

/-- Sample fresh job used by concrete witnesses. -/
def jobSample : Job :=
  { id := "11111111-1111-1111-1111-111111111111"
    filename := "a.jpg"
    file_path := "/uploads/a.jpg"
    status := .pending
    error := none
    results := none
    top_k := 5
    created_at := 0
    started_at := none
    completed_at := none }

/-- Environment whose filesystem has no files: every path is missing.
The model and resolver answers are immaterial on that path. -/
def envMissing : Env :=
  { pathExists := fun _ => false
    modelPredict := fun _ _ => .ok ([(7, 8)], [9])
    resolver := fun _ _ => none
    loadPredictor := .ok ()
    deviceLabel := "cpu" }

/-- Environment where every file exists and the model returns two ranked
candidates with non-increasing probabilities; the resolver knows one
place. -/
def envOk : Env :=
  { pathExists := fun _ => true
    modelPredict := fun _ _ => .ok ([(1, 2), (3, 4)], [10, 5])
    resolver := fun _ _ => some { city := some "Paris", state := none, county := none, country := some "France" }
    loadPredictor := .ok ()
    deviceLabel := "cpu" }

/-- Environment where every file exists and the resolver always raises. -/
def envNoResolve : Env :=
  { pathExists := fun _ => true
    modelPredict := fun _ _ => .ok ([(1, 2), (3, 4)], [10, 5])
    resolver := fun _ _ => none
    loadPredictor := .ok ()
    deviceLabel := "cpu" }

/-- Environment where only `/b.jpg` exists on disk. -/
def envMixed : Env :=
  { pathExists := fun p => p = "/b.jpg"
    modelPredict := fun _ _ => .ok ([(1, 2)], [10])
    resolver := fun _ _ => none
    loadPredictor := .ok ()
    deviceLabel := "cpu" }

/-- A two-record batch: first file absent, second present (under
`envMixed`). -/
def recordsMixed : List InputRecord :=
  [{ index := 1, path := "/a.jpg", md5 := none },
   { index := 2, path := "/b.jpg", md5 := some "d41d8cd9" }]

/-- Fallback record for positional lookups in batch statements. -/
def dummyRecord : InputRecord := { index := 0, path := "", md5 := none }

/-- Fallback outcome for positional lookups in batch statements. -/
def dummyOutcome : PredictionOutcome :=
  { record := dummyRecord, predictions := [], warnings := [], error := none }

/-- Substring test: does `hay` contain `needle` as a contiguous run?
Used to state (and refute) "the error contains a missing-file
indication". -/
def strContains (hay needle : String) : Bool :=
  let h := hay.toList
  let n := needle.toList
  (List.range (h.length + 1)).any (fun i => n.isPrefixOf (h.drop i))

/-- `_check_timeout` leaves the state untouched when no predictor is
resident or the idle threshold is not exceeded. -/
theorem check_timeout_noop (timeout t : Nat) (s : MgrState)
    (h : s.resident = false ∨ t - s.lastUsed ≤ timeout) :
    check_timeout timeout t s = s := by
  unfold check_timeout
  split
  · rename_i hcond
    exfalso
    rcases h with h | h
    · rw [h] at hcond
      exact absurd hcond.1 (by simp)
    · exact absurd hcond.2.2 (by omega)
  · rfl

/-- A resident predictor last used at `tl` survives any event sequence
chained within the idle window, with no further construction. -/
theorem withinChain_keeps_resident (timeout : Nat) :
    ∀ {tl : Nat} {es : List MEvent},
      WithinChain timeout tl es →
      ∀ s : MgrState, s.resident = true → s.lastUsed = tl →
        (runEvents timeout s es).resident = true ∧
        (runEvents timeout s es).builds = s.builds := by
  intro tl es h
  induction h with
  | nil tl =>
      intro s hres hl
      simp [runEvents]
      exact hres
  | sweep tl t es h1 h2 h ih =>
      intro s hres hl
      have hstep : mstep timeout s (.sweep t) = s := by
        unfold mstep
        exact check_timeout_noop timeout t s (Or.inr (by omega))
      have : runEvents timeout s (.sweep t :: es) = runEvents timeout s es := by
        unfold runEvents
        simp [List.foldl, hstep]
      rw [this]
      exact ih s hres hl
  | acquire tl t es h1 h2 h ih =>
      intro s hres hl
      have hstep : mstep timeout s (.acquire t) = { s with lastUsed := t } := by
        unfold mstep get_predictor
        simp [hres]
      have : runEvents timeout s (.acquire t :: es) =
          runEvents timeout { s with lastUsed := t } es := by
        unfold runEvents
        simp [List.foldl, hstep]
      rw [this]
      exact ih { s with lastUsed := t } hres rfl

/-- C8: running the idle sweep (`_check_timeout`) when no engine is
resident, or when the idle threshold has not yet been exceeded, leaves
the manager state (predictor reference and `_last_used`) unchanged. -/
theorem claim_C8_sweep_noop (timeout t : Nat) (s : MgrState)
    (h : s.resident = false ∨ t - s.lastUsed ≤ timeout) :
    check_timeout timeout t s = s :=
  check_timeout_noop timeout t s h

/-- Witness for C8 at a concrete state: resident but not yet expired. -/
theorem claim_C8_sweep_noop_witness :
    (mgrResident.resident = false ∨ 7 - mgrResident.lastUsed ≤ 600) ∧
    check_timeout 600 7 mgrResident = mgrResident :=
  ⟨by decide, claim_C8_sweep_noop 600 7 mgrResident (by decide)⟩

/-- C5: when construction raises inside `get_predictor`, the error
propagates to that caller, the predictor reference stays `None`, and the
next `get_predictor` call retries construction and succeeds. -/
theorem claim_C5_construction_failure_no_poison (s : MgrState) (t u : Nat) (e : String)
    (hs : s.resident = false) :
    (get_predictor (.error e) t s).2 = .error e ∧
    (get_predictor (.error e) t s).1.resident = false ∧
    (get_predictor (.ok ()) u (get_predictor (.error e) t s).1).2 = .ok () ∧
    (get_predictor (.ok ()) u (get_predictor (.error e) t s).1).1.resident = true ∧
    (get_predictor (.ok ()) u (get_predictor (.error e) t s).1).1.builds = s.builds + 1 := by
  simp [get_predictor, hs]

/-- Witness for C5 at a concrete absent state. -/
theorem claim_C5_construction_failure_no_poison_witness :
    mgrAbsent.resident = false ∧
    ((get_predictor (.error "CUDA requested but no compatible GPU is available.") 3 mgrAbsent).2 =
        .error "CUDA requested but no compatible GPU is available." ∧
      (get_predictor (.error "CUDA requested but no compatible GPU is available.") 3 mgrAbsent).1.resident = false ∧
      (get_predictor (.ok ()) 9
          (get_predictor (.error "CUDA requested but no compatible GPU is available.") 3 mgrAbsent).1).2 = .ok () ∧
      (get_predictor (.ok ()) 9
          (get_predictor (.error "CUDA requested but no compatible GPU is available.") 3 mgrAbsent).1).1.resident = true ∧
      (get_predictor (.ok ()) 9
          (get_predictor (.error "CUDA requested but no compatible GPU is available.") 3 mgrAbsent).1).1.builds =
        mgrAbsent.builds + 1) :=
  ⟨by decide,
    claim_C5_construction_failure_no_poison mgrAbsent 3 9
      "CUDA requested but no compatible GPU is available." (by decide)⟩

/-- C10: after `shutdown` (which evicts any resident engine), a
subsequent `get_predictor` does not fail: it reconstructs the predictor
lazily, exactly once, and returns it. -/
theorem claim_C10_acquire_after_shutdown (s : MgrState) (t : Nat) :
    (get_predictor (.ok ()) t (shutdownMgr s)).2 = .ok () ∧
    (get_predictor (.ok ()) t (shutdownMgr s)).1.resident = true ∧
    (get_predictor (.ok ()) t (shutdownMgr s)).1.builds = (shutdownMgr s).builds + 1 := by
  have habs : (shutdownMgr s).resident = false := by
    cases hr : s.resident <;> simp [shutdownMgr, unloadModel, hr]
  simp [get_predictor, habs]

/-- C3: (i) starting from an absent engine, an acquisition followed by
any events chained within the idle window constructs the engine exactly
once and keeps it resident — in particular N such acquisitions construct
at most once; (ii) once the idle window has elapsed with no acquisition,
the periodic sweep evicts the engine and the next acquisition performs
exactly one reconstruction. -/
theorem claim_C3_idle_window_lifecycle (timeout : Nat) :
    (∀ (s : MgrState) (t1 : Nat) (es : List MEvent),
      s.resident = false → WithinChain timeout t1 es →
      (runEvents timeout s (.acquire t1 :: es)).resident = true ∧
      (runEvents timeout s (.acquire t1 :: es)).builds = s.builds + 1) ∧
    (∀ (s : MgrState) (t u : Nat),
      s.resident = true → s.lastUsed > 0 → t - s.lastUsed > timeout →
      (mstep timeout s (.sweep t)).resident = false ∧
      (mstep timeout (mstep timeout s (.sweep t)) (.acquire u)).resident = true ∧
      (mstep timeout (mstep timeout s (.sweep t)) (.acquire u)).builds = s.builds + 1) := by
  constructor
  · intro s t1 es hs hchain
    have hstep : mstep timeout s (.acquire t1) =
        { s with lastUsed := t1, resident := true, builds := s.builds + 1 } := by
      unfold mstep get_predictor
      simp [hs]
    have hrun : runEvents timeout s (.acquire t1 :: es) =
        runEvents timeout { s with lastUsed := t1, resident := true, builds := s.builds + 1 } es := by
      unfold runEvents
      simp [List.foldl, hstep]
    rw [hrun]
    have := withinChain_keeps_resident timeout hchain
      { s with lastUsed := t1, resident := true, builds := s.builds + 1 } rfl rfl
    exact ⟨this.1, this.2⟩
  · intro s t u hres hl hexp
    have hsweep : mstep timeout s (.sweep t) = unloadModel s := by
      simp only [mstep, check_timeout]
      rw [if_pos ⟨hres, hl, hexp⟩]
    constructor
    · rw [hsweep]; rfl
    · rw [hsweep]
      simp [mstep, get_predictor, unloadModel]

/-- Witness for C3 at concrete inputs: timeout 10; acquisitions at times
1 and 8 with a sweep at 5 and one at 12 all chained within the window,
from the absent state; then from a resident state last used at 5, a
sweep at 20 and a reacquisition at 21. -/
theorem claim_C3_idle_window_lifecycle_witness :
    (mgrAbsent.resident = false ∧
      (runEvents 10 mgrAbsent [.acquire 1, .sweep 5, .acquire 8, .sweep 12]).resident = true ∧
      (runEvents 10 mgrAbsent [.acquire 1, .sweep 5, .acquire 8, .sweep 12]).builds =
        mgrAbsent.builds + 1) ∧
    (mgrResident.resident = true ∧
      (mstep 10 mgrResident (.sweep 20)).resident = false ∧
      (mstep 10 (mstep 10 mgrResident (.sweep 20)) (.acquire 21)).resident = true ∧
      (mstep 10 (mstep 10 mgrResident (.sweep 20)) (.acquire 21)).builds =
        mgrResident.builds + 1) := by
  have hchain : WithinChain 10 1 [.sweep 5, .acquire 8, .sweep 12] :=
    WithinChain.sweep 1 5 _ (by omega) (by omega)
      (WithinChain.acquire 1 8 _ (by omega) (by omega)
        (WithinChain.sweep 8 12 _ (by omega) (by omega) (WithinChain.nil 8)))
  have h1 := (claim_C3_idle_window_lifecycle 10).1 mgrAbsent 1
    [.sweep 5, .acquire 8, .sweep 12] (by decide) hchain
  have h2 := (claim_C3_idle_window_lifecycle 10).2 mgrResident 20 21
    (by decide) (by decide) (by decide)
  exact ⟨⟨by decide, h1.1, h1.2⟩, ⟨by decide, h2.1, h2.2.1, h2.2.2⟩⟩

/-- C1 as stated is false: at the concrete job whose file is absent,
processed with skip_missing=false, the job does end failed with null
results, but its error is the AttributeError text "'str' object has no
attribute 'exists'" — the worker passes `job.file_path` (a `str`) into
the Path-expecting predictor, which raises at `record.path.exists()`
before any missing-file handling.  That message is no missing-file
indication: it does not contain the predictor's message "File does not
exist: ...", nor "File"/"file" nor "miss"; "exists" occurs only as the
name of the missing attribute. -/
theorem claim_C1_counterexample :
    (process_geolocation_async envMissing 0 1 jobSample).2.status = .failed ∧
    (process_geolocation_async envMissing 0 1 jobSample).2.results = none ∧
    (process_geolocation_async envMissing 0 1 jobSample).2.error =
      some "'str' object has no attribute 'exists'" ∧
    strContains "'str' object has no attribute 'exists'"
      ("File does not exist: " ++ jobSample.file_path) = false ∧
    strContains "'str' object has no attribute 'exists'" "File does not exist" = false ∧
    strContains "'str' object has no attribute 'exists'" "File" = false ∧
    strContains "'str' object has no attribute 'exists'" "file" = false ∧
    strContains "'str' object has no attribute 'exists'" "miss" = false := by
  decide

/-- C1 amended: every worker job whose predictor loads — in particular
one whose file is absent, processed with skip_missing=false — ends
failed with null results, and the error field is the AttributeError
text "'str' object has no attribute 'exists'": the worker hands
`job.file_path` (a `str` column) to the Path-expecting predictor, whose
`record.path.exists()` raises before the missing-file branch can run,
so no missing-file indication ever reaches the job. -/
theorem claim_C1_missing_file_failure (env : Env) (t1 t2 : Nat) (j : Job)
    (_hmiss : env.pathExists j.file_path = false)
    (hload : env.loadPredictor = .ok ())
    (hres : j.results = none) :
    (process_geolocation_async env t1 t2 j).2.status = .failed ∧
    (process_geolocation_async env t1 t2 j).2.error =
      some "'str' object has no attribute 'exists'" ∧
    (process_geolocation_async env t1 t2 j).2.results = none := by
  simp [process_geolocation_async, predict_records_py, pathExistsCall, hload, hres]

/-- Witness for the amended C1 at the concrete missing-file job. -/
theorem claim_C1_missing_file_failure_witness :
    (envMissing.pathExists jobSample.file_path = false ∧
      envMissing.loadPredictor = .ok () ∧ jobSample.results = none) ∧
    ((process_geolocation_async envMissing 0 1 jobSample).2.status = .failed ∧
      (process_geolocation_async envMissing 0 1 jobSample).2.error =
        some "'str' object has no attribute 'exists'" ∧
      (process_geolocation_async envMissing 0 1 jobSample).2.results = none) :=
  ⟨⟨rfl, rfl, rfl⟩, claim_C1_missing_file_failure envMissing 0 1 jobSample rfl rfl rfl⟩

/-- C9: processing a job id that has no record in the store leaves the
store exactly as it was — nothing is persisted. -/
theorem claim_C9_absent_job_no_mutation (env : Env) (t1 t2 : Nat)
    (store : String → Option Job) (jobId : String)
    (h : store jobId = none) :
    processStore env t1 t2 store jobId = store := by
  unfold processStore
  rw [h]

/-- Witness for C9 on the empty store. -/
theorem claim_C9_absent_job_no_mutation_witness :
    ((fun _ : String => (none : Option Job)) "nope" = none) ∧
    processStore envOk 0 1 (fun _ => none) "nope" = (fun _ => none) :=
  ⟨rfl, claim_C9_absent_job_no_mutation envOk 0 1 (fun _ => none) "nope" rfl⟩

/-- C2: processing a freshly submitted (pending, null-fielded) job moves
it pending → processing → {completed, failed} and never backwards, and
every persisted state satisfies the nullability invariants: `started_at`
set iff the status left pending, `completed_at` set iff terminal,
`results` set iff completed, `error` set iff failed. -/
theorem claim_C2_status_invariants (env : Env) (t1 t2 : Nat) (j : Job)
    (hj : freshJob j) :
    jobInvariants j ∧
    (processJobAsync env t1 t2 j).1.status = .processing ∧
    ((processJobAsync env t1 t2 j).2.status = .completed ∨
      (processJobAsync env t1 t2 j).2.status = .failed) ∧
    jobInvariants (processJobAsync env t1 t2 j).1 ∧
    jobInvariants (processJobAsync env t1 t2 j).2 := by
  obtain ⟨hst, herr, hres, hsa, hca⟩ := hj
  unfold processJobAsync jobInvariants
  cases hload : env.loadPredictor with
  | error e =>
      simp [hload, hst, herr, hres, hsa, hca]
  | ok u =>
      simp only [hload, predict_records, List.map, List.head?]
      split
      · simp [hst, herr, hres, hsa, hca]
      · simp [hst, herr, hres, hsa, hca]

/-- Witness for C2 at the concrete fresh job and a working environment. -/
theorem claim_C2_status_invariants_witness :
    freshJob jobSample ∧
    (jobInvariants jobSample ∧
      (processJobAsync envOk 3 9 jobSample).1.status = .processing ∧
      ((processJobAsync envOk 3 9 jobSample).2.status = .completed ∨
        (processJobAsync envOk 3 9 jobSample).2.status = .failed) ∧
      jobInvariants (processJobAsync envOk 3 9 jobSample).1 ∧
      jobInvariants (processJobAsync envOk 3 9 jobSample).2) :=
  ⟨⟨rfl, rfl, rfl, rfl, rfl⟩,
    claim_C2_status_invariants envOk 3 9 jobSample ⟨rfl, rfl, rfl, rfl, rfl⟩⟩

/-- Every branch of the loop body echoes the input record unchanged. -/
theorem predictRecord_record (env : Env) (top_k : Nat) (sm : Bool) (r : InputRecord) :
    (predictRecord env top_k sm r).record = r := by
  unfold predictRecord
  by_cases h : env.pathExists r.path = false
  · rw [if_pos h]
    cases sm <;> rfl
  · rw [if_neg h]
    unfold inferRecord
    rcases env.modelPredict r.path top_k with e | ⟨gps, probs⟩
    · rfl
    · by_cases hg : gps.isEmpty <;> simp [hg]

/-- Inference outcomes never carry warnings. -/
theorem inferRecord_warnings (env : Env) (top_k : Nat) (r : InputRecord) :
    (inferRecord env top_k r).warnings = [] := by
  unfold inferRecord
  rcases env.modelPredict r.path top_k with e | ⟨gps, probs⟩
  · rfl
  · by_cases hg : gps.isEmpty <;> simp [hg]

/-- C6: with skip-missing enabled, `predict_records` yields exactly one
outcome per record in input order (no short-circuit); the records whose
file is missing — and exactly those — yield a warning-only outcome
(warning present, empty predictions, no error), and every record whose
file exists proceeds to inference. -/
theorem claim_C6_skip_missing_batch (env : Env) (top_k : Nat)
    (records : List InputRecord) (i : Nat) (hi : i < records.length) :
    (predict_records env top_k true records).length = records.length ∧
    (predict_records env top_k true records).map PredictionOutcome.record = records ∧
    (predict_records env top_k true records).countP
        (fun o => o.error.isNone && o.predictions.isEmpty && !o.warnings.isEmpty) =
      records.countP (fun r => !env.pathExists r.path) ∧
    (env.pathExists (records.getD i dummyRecord).path = false →
      ((predict_records env top_k true records).getD i dummyOutcome).warnings =
        ["File does not exist: " ++ (records.getD i dummyRecord).path] ∧
      ((predict_records env top_k true records).getD i dummyOutcome).predictions = [] ∧
      ((predict_records env top_k true records).getD i dummyOutcome).error = none) ∧
    (env.pathExists (records.getD i dummyRecord).path = true →
      (predict_records env top_k true records).getD i dummyOutcome =
        inferRecord env top_k (records.getD i dummyRecord)) := by
  have hlen : (predict_records env top_k true records).length = records.length := by
    simp [predict_records]
  have hgetr : records.getD i dummyRecord = records[i] :=
    List.getD_eq_getElem records dummyRecord hi
  have hlti : i < (predict_records env top_k true records).length := by
    rw [hlen]; exact hi
  have hgeto : (predict_records env top_k true records).getD i dummyOutcome =
      predictRecord env top_k true records[i] := by
    rw [List.getD_eq_getElem _ dummyOutcome hlti]
    simp [predict_records]
  refine ⟨hlen, ?_, ?_, ?_, ?_⟩
  · unfold predict_records
    rw [List.map_map]
    have : ∀ r ∈ records,
        (PredictionOutcome.record ∘ predictRecord env top_k true) r = id r := by
      intro r _
      exact predictRecord_record env top_k true r
    rw [List.map_congr_left this, List.map_id]
  · unfold predict_records
    rw [List.countP_map]
    apply List.countP_congr
    intro r _
    by_cases h : env.pathExists r.path = false
    · simp [Function.comp, predictRecord, h]
    · have ht : env.pathExists r.path = true := by
        cases hx : env.pathExists r.path
        · exact absurd hx h
        · rfl
      simp [Function.comp, predictRecord, ht, inferRecord_warnings]
  · intro h
    rw [hgetr] at h
    rw [hgeto, hgetr]
    simp [predictRecord, h]
  · intro h
    rw [hgetr] at h
    rw [hgeto, hgetr]
    simp [predictRecord, h]

/-- Witness for C6 on the mixed two-record batch, at index 0 (the
missing file). -/
theorem claim_C6_skip_missing_batch_witness :
    0 < recordsMixed.length ∧
    ((predict_records envMixed 5 true recordsMixed).length = recordsMixed.length ∧
      (predict_records envMixed 5 true recordsMixed).map PredictionOutcome.record = recordsMixed ∧
      (predict_records envMixed 5 true recordsMixed).countP
          (fun o => o.error.isNone && o.predictions.isEmpty && !o.warnings.isEmpty) =
        recordsMixed.countP (fun r => !envMixed.pathExists r.path) ∧
      (envMixed.pathExists (recordsMixed.getD 0 dummyRecord).path = false →
        ((predict_records envMixed 5 true recordsMixed).getD 0 dummyOutcome).warnings =
          ["File does not exist: " ++ (recordsMixed.getD 0 dummyRecord).path] ∧
        ((predict_records envMixed 5 true recordsMixed).getD 0 dummyOutcome).predictions = [] ∧
        ((predict_records envMixed 5 true recordsMixed).getD 0 dummyOutcome).error = none) ∧
      (envMixed.pathExists (recordsMixed.getD 0 dummyRecord).path = true →
        (predict_records envMixed 5 true recordsMixed).getD 0 dummyOutcome =
          inferRecord envMixed 5 (recordsMixed.getD 0 dummyRecord))) :=
  ⟨by decide, claim_C6_skip_missing_batch envMixed 5 recordsMixed 0 (by decide)⟩

/-- The candidate list has one entry per zipped (coords, prob) pair,
whatever the resolver answers. -/
theorem buildCandidates_length (env : Env) (gps : List (Int × Int)) (probs : List Int) :
    (buildCandidates env gps probs).length = (gps.zip probs).length := by
  simp [buildCandidates]

/-- Lists of equal length agree on emptiness. -/
theorem isEmpty_of_length_eq {α β : Type} (l1 : List α) (l2 : List β)
    (h : l1.length = l2.length) : l1.isEmpty = l2.isEmpty := by
  cases l1 <;> cases l2 <;> simp_all

/-- Swapping the resolver changes neither an outcome's error nor whether
it carries predictions. -/
theorem predictRecord_resolver_frame (env : Env) (r2 : Int → Int → Option PlaceMap)
    (top_k : Nat) (sm : Bool) (r : InputRecord) :
    (predictRecord { env with resolver := r2 } top_k sm r).error =
      (predictRecord env top_k sm r).error ∧
    (predictRecord { env with resolver := r2 } top_k sm r).predictions.isEmpty =
      (predictRecord env top_k sm r).predictions.isEmpty := by
  unfold predictRecord inferRecord
  by_cases h : env.pathExists r.path = false
  · simp only [h]
    cases sm <;> simp
  · have ht : env.pathExists r.path = true := by
      cases hx : env.pathExists r.path
      · exact absurd hx h
      · rfl
    simp only [ht]
    rcases env.modelPredict r.path top_k with e | ⟨gps, probs⟩
    · simp
    · by_cases hg : gps.isEmpty <;>
        simp [hg, isEmpty_of_length_eq _ _
          ((buildCandidates_length _ gps probs).trans (buildCandidates_length env gps probs).symm)]

/-- When the resolver always raises or answers the empty dict, every
assembled candidate has empty place fields and empty summary. -/
theorem buildCandidates_empty_resolver (env : Env) (gps : List (Int × Int))
    (probs : List Int)
    (hres : ∀ la lo : Int, env.resolver la lo = none ∨ env.resolver la lo = some emptyPlace) :
    ∀ c ∈ buildCandidates env gps probs,
      c.city = "" ∧ c.state = "" ∧ c.county = "" ∧ c.country = "" ∧
      c.location_summary = "" := by
  intro c hc
  unfold buildCandidates at hc
  obtain ⟨entry, _, hentry⟩ := List.mem_map.mp hc
  have hrl : reverse_lookup env.resolver entry.2.1.1 entry.2.1.2 = emptyPlace := by
    unfold reverse_lookup
    rcases hres entry.2.1.1 entry.2.1.2 with h | h <;> rw [h]
  rw [← hentry]
  simp only [hrl]
  refine ⟨rfl, rfl, rfl, rfl, ?_⟩
  simp [LocationPrediction.location_summary, emptyPlace, orEmpty]
  rfl

/-- Under an empty-answering resolver, every prediction an outcome
carries has empty place fields and empty summary. -/
theorem predictRecord_empty_resolver (env : Env) (top_k : Nat) (sm : Bool)
    (r : InputRecord)
    (hres : ∀ la lo : Int, env.resolver la lo = none ∨ env.resolver la lo = some emptyPlace) :
    ∀ c ∈ (predictRecord env top_k sm r).predictions,
      c.city = "" ∧ c.state = "" ∧ c.county = "" ∧ c.country = "" ∧
      c.location_summary = "" := by
  unfold predictRecord inferRecord
  by_cases h : env.pathExists r.path = false
  · simp only [h]
    cases sm <;> simp
  · have ht : env.pathExists r.path = true := by
      cases hx : env.pathExists r.path
      · exact absurd hx h
      · rfl
    simp only [ht]
    rcases env.modelPredict r.path top_k with e | ⟨gps, probs⟩
    · simp
    · by_cases hg : gps.isEmpty
      · simp [hg]
      · simp only [hg, Bool.false_eq_true, if_false, if_neg]
        exact buildCandidates_empty_resolver env gps probs hres

/-- Lists with equal `isEmpty` flags are nil together. -/
theorem eq_nil_iff_of_isEmpty_eq {α β : Type} {l1 : List α} {l2 : List β}
    (h : l1.isEmpty = l2.isEmpty) : l1 = [] ↔ l2 = [] := by
  cases l1 <;> cases l2 <;> simp_all

/-- A non-nil list has a false `isEmpty` flag. -/
theorem isEmpty_false_of_ne_nil {α : Type} (l : List α) (h : l ≠ []) :
    l.isEmpty = false := by
  cases l
  · exact absurd rfl h
  · rfl

/-- C7: the resolver never decides a job's fate — swapping it for any
other resolver leaves the processed job's status and error unchanged —
and when it always raises or answers the empty mapping, every prediction
of a completed job has empty city/state/county/country and empty
`location_summary`. -/
theorem claim_C7_resolver_failures_swallowed (env : Env)
    (r2 : Int → Int → Option PlaceMap) (t1 t2 : Nat) (j : Job)
    (hres : ∀ la lo : Int, env.resolver la lo = none ∨ env.resolver la lo = some emptyPlace) :
    ((processJobAsync { env with resolver := r2 } t1 t2 j).2.status =
        (processJobAsync env t1 t2 j).2.status ∧
      (processJobAsync { env with resolver := r2 } t1 t2 j).2.error =
        (processJobAsync env t1 t2 j).2.error) ∧
    ((processJobAsync env t1 t2 j).2.status = .completed →
      ∀ res, (processJobAsync env t1 t2 j).2.results = some res →
        ∀ p ∈ res.predictions,
          p.city = "" ∧ p.state = "" ∧ p.county = "" ∧ p.country = "" ∧
          p.location_summary = "") := by
  have hframe := predictRecord_resolver_frame env r2 j.top_k false
    { index := 1, path := j.file_path, md5 := none }
  have hiff := eq_nil_iff_of_isEmpty_eq hframe.2
  have hfields := predictRecord_empty_resolver env j.top_k false
    { index := 1, path := j.file_path, md5 := none } hres
  cases hload : env.loadPredictor with
  | error e =>
      constructor
      · simp [processJobAsync, hload]
      · simp [processJobAsync, hload]
  | ok u =>
      by_cases hempty :
          (predictRecord env j.top_k false
            { index := 1, path := j.file_path, md5 := none }).predictions = []
      · have h2 := hiff.mpr hempty
        rw [hload] at h2
        constructor
        · simp [processJobAsync, predict_records, hload, hempty, h2]
        · simp [processJobAsync, predict_records, hload, hempty]
      · have h2 : (predictRecord { env with resolver := r2 } j.top_k false
            { index := 1, path := j.file_path, md5 := none }).predictions ≠ [] := by
          intro hx
          exact hempty (hiff.mp hx)
        rw [hload] at h2
        constructor
        · simp [processJobAsync, predict_records, hload, hempty, h2]
        · intro _ res hsome p hp
          have hempty2 : (predictRecord env j.top_k false
              { index := 1, path := j.file_path, md5 := none }).predictions.isEmpty = false :=
            isEmpty_false_of_ne_nil _ hempty
          simp only [processJobAsync, predict_records, List.map, List.head?, hload,
            hempty2, Bool.false_eq_true, if_false, Option.some.injEq] at hsome
          rw [← hsome] at hp
          simp only [List.mem_map] at hp
          obtain ⟨c, hc, hcp⟩ := hp
          have hf := hfields c hc
          rw [← hcp]
          exact ⟨hf.1, hf.2.1, hf.2.2.1, hf.2.2.2.1, hf.2.2.2.2⟩

/-- Witness for C7: the raising resolver against an arbitrary
replacement resolver, on the sample job. -/
theorem claim_C7_resolver_failures_swallowed_witness :
    (∀ la lo : Int, envNoResolve.resolver la lo = none ∨
      envNoResolve.resolver la lo = some emptyPlace) ∧
    (((processJobAsync { envNoResolve with resolver := fun _ _ => some emptyPlace } 0 1 jobSample).2.status =
        (processJobAsync envNoResolve 0 1 jobSample).2.status ∧
      (processJobAsync { envNoResolve with resolver := fun _ _ => some emptyPlace } 0 1 jobSample).2.error =
        (processJobAsync envNoResolve 0 1 jobSample).2.error) ∧
    ((processJobAsync envNoResolve 0 1 jobSample).2.status = .completed →
      ∀ res, (processJobAsync envNoResolve 0 1 jobSample).2.results = some res →
        ∀ p ∈ res.predictions,
          p.city = "" ∧ p.state = "" ∧ p.county = "" ∧ p.country = "" ∧
          p.location_summary = "")) :=
  ⟨fun _ _ => Or.inl rfl,
    claim_C7_resolver_failures_swallowed envNoResolve (fun _ _ => some emptyPlace) 0 1 jobSample
      (fun _ _ => Or.inl rfl)⟩

/-- The probabilities surviving the zip with coordinates form a sublist
of the engine's probability list. -/
theorem map_snd_zip_sublist {α β : Type} :
    ∀ (l1 : List α) (l2 : List β), ((l1.zip l2).map Prod.snd).Sublist l2 := by
  intro l1
  induction l1 with
  | nil => intro l2; simp
  | cons a l1 ih =>
      intro l2
      cases l2 with
      | nil => simp
      | cons b l2 => simpa using (ih l2).cons₂ b

/-- The assembled candidates enumerate the zipped engine output: ranks
are `1..n` in order and every row carries the coordinates and
probability of its engine entry. -/
theorem buildCandidates_enum (env : Env) (gps : List (Int × Int)) (probs : List Int) :
    (buildCandidates env gps probs).map (fun c => c.rank) =
      List.range' 1 (gps.zip probs).length ∧
    (buildCandidates env gps probs).map
        (fun c => ((c.latitude, c.longitude), c.probability)) = gps.zip probs := by
  constructor
  · unfold buildCandidates
    rw [List.map_map]
    exact List.enumFrom_map_fst 1 (gps.zip probs)
  · unfold buildCandidates
    rw [List.map_map]
    exact List.enumFrom_map_snd 1 (gps.zip probs)

/-- C4: a completed job has non-empty results; their ranks are exactly
1..n, contiguous and strictly increasing; the i-th row carries the
coordinates and probability of the i-th engine output (order preserved);
hence non-increasing engine probabilities stay non-increasing in the
results. -/
theorem claim_C4_completed_results_order (env : Env) (t1 t2 : Nat) (j : Job)
    (gps : List (Int × Int)) (probs : List Int)
    (hm : env.modelPredict j.file_path j.top_k = .ok (gps, probs))
    (hc : (processJobAsync env t1 t2 j).2.status = .completed) :
    ∃ res : JobResults,
      (processJobAsync env t1 t2 j).2.results = some res ∧
      res.predictions ≠ [] ∧
      res.predictions.map PredRow.rank = List.range' 1 res.predictions.length ∧
      res.predictions.map (fun row => ((row.latitude, row.longitude), row.probability)) =
        gps.zip probs ∧
      (probs.Pairwise (fun a b => a ≥ b) →
        (res.predictions.map PredRow.probability).Pairwise (fun a b => a ≥ b)) := by
  cases hload : env.loadPredictor with
  | error e =>
      exfalso
      simp [processJobAsync, hload] at hc
  | ok u =>
      by_cases hpe :
          (predictRecord env j.top_k false
            { index := 1, path := j.file_path, md5 := none }).predictions = []
      · exfalso
        simp [processJobAsync, predict_records, hload, hpe] at hc
      · have hop : (predictRecord env j.top_k false
            { index := 1, path := j.file_path, md5 := none }).predictions =
            buildCandidates env gps probs := by
          unfold predictRecord inferRecord at hpe ⊢
          by_cases hpath : env.pathExists j.file_path = false
          · exfalso
            apply hpe
            simp [hpath]
          · have hpt : env.pathExists j.file_path = true := by
              cases hx : env.pathExists j.file_path
              · exact absurd hx hpath
              · rfl
            simp only [hpt] at hpe ⊢
            rw [hm] at hpe ⊢
            by_cases hg : gps.isEmpty
            · exfalso
              apply hpe
              simp [hg]
            · simp [hg]
        have hempty2 : (predictRecord env j.top_k false
            { index := 1, path := j.file_path, md5 := none }).predictions.isEmpty = false :=
          isEmpty_false_of_ne_nil _ hpe
        refine ⟨⟨((predictRecord env j.top_k false
            ⟨1, j.file_path, none⟩).predictions).map serializePrediction,
          env.deviceLabel⟩, ?_, ?_, ?_, ?_, ?_⟩
        · simp [processJobAsync, predict_records, hload, hempty2]
        · simp only [ne_eq, List.map_eq_nil_iff]
          exact hpe
        · rw [hop]
          simp only [List.map_map, List.length_map]
          rw [buildCandidates_length]
          exact (buildCandidates_enum env gps probs).1
        · rw [hop, List.map_map]
          exact (buildCandidates_enum env gps probs).2
        · intro hmono
          rw [hop, List.map_map]
          have hprob : (buildCandidates env gps probs).map
              ((fun row => row.probability) ∘ serializePrediction) =
              (gps.zip probs).map Prod.snd := by
            unfold buildCandidates
            rw [List.map_map]
            have := List.enumFrom_map_snd 1 (gps.zip probs)
            calc (List.enumFrom 1 (gps.zip probs)).map
                  (((fun row => row.probability) ∘ serializePrediction) ∘ fun entry =>
                    { rank := entry.1, latitude := entry.2.1.1, longitude := entry.2.1.2
                      probability := entry.2.2
                      city := orEmpty (reverse_lookup env.resolver entry.2.1.1 entry.2.1.2).city
                      state := orEmpty (reverse_lookup env.resolver entry.2.1.1 entry.2.1.2).state
                      county := orEmpty (reverse_lookup env.resolver entry.2.1.1 entry.2.1.2).county
                      country := orEmpty (reverse_lookup env.resolver entry.2.1.1 entry.2.1.2).country }) =
                ((List.enumFrom 1 (gps.zip probs)).map Prod.snd).map Prod.snd := by
                  rw [List.map_map]
                  rfl
              _ = (gps.zip probs).map Prod.snd := by rw [this]
          rw [hprob]
          exact hmono.sublist (map_snd_zip_sublist gps probs)

/-- Witness for C4 on the sample job under the two-candidate
environment with non-increasing probabilities. -/
theorem claim_C4_completed_results_order_witness :
    (envOk.modelPredict jobSample.file_path jobSample.top_k =
        .ok ([(1, 2), (3, 4)], [10, 5]) ∧
      (processJobAsync envOk 0 1 jobSample).2.status = .completed) ∧
    (∃ res : JobResults,
      (processJobAsync envOk 0 1 jobSample).2.results = some res ∧
      res.predictions ≠ [] ∧
      res.predictions.map PredRow.rank = List.range' 1 res.predictions.length ∧
      res.predictions.map (fun row => ((row.latitude, row.longitude), row.probability)) =
        ([(1, 2), (3, 4)] : List (Int × Int)).zip ([10, 5] : List Int) ∧
      (([10, 5] : List Int).Pairwise (fun a b => a ≥ b) →
        (res.predictions.map PredRow.probability).Pairwise (fun a b => a ≥ b))) :=
  ⟨⟨rfl, by decide⟩,
    claim_C4_completed_results_order envOk 0 1 jobSample [(1, 2), (3, 4)] [10, 5] rfl (by decide)⟩
